import Mathlib

/-!
Verification of the anytime-sum-kernel scheduler and pipeline engine.

The definitions below are shallow embeddings of the Python source:
  backend/app/services/scheduler/service.py   (SchedulerService)
  backend/app/services/scheduler/tasks/base.py (ScheduledTask)
  backend/app/services/scheduler/tasks/pipeline.py (PipelineTask)
  backend/app/services/scheduler/models.py    (TaskConfig)
  backend/app/pipeline/orchestration/executor.py (PipelineExecutor)

Timestamps (datetime.now()) are rationals counting seconds; times of day
are natural-number seconds since midnight; Python dicts are association
lists; raised exceptions are explicit error values.
-/

namespace Sched

/-- Task lifecycle status, the four string values used by the source. -/
inductive TStatus where
  | idle
  | running
  | completed
  | failed
deriving DecidableEq, Repr

/-- State of a ScheduledTask (tasks/base.py, fields set in ScheduledTask.init).
lastRun is an absolute timestamp in seconds; interval_minutes is kept
rational because the source compares it against a float quotient. -/
structure TaskState where
  name : String
  enabled : Bool
  status : TStatus
  lastRun : Option ℚ
  error : Option String
  daily_start_time : String
  daily_end_time : String
  interval_minutes : ℚ
deriving DecidableEq, Repr

/-- Numeric value of a decimal digit character. -/
def digitVal (c : Char) : Nat := c.toNat - 48

/-- Parse a one- or two-digit numeric field bounded by maxv, as the regex
compiled by Python strptime for the directives H and M does: prefer the
two-digit match when it stays within the bound, fall back to one digit.
Returns the value and the unconsumed characters. -/
def parseField2 (maxv : Nat) : List Char → Option (Nat × List Char)
  | [] => none
  | [c] => if c.isDigit then some (digitVal c, []) else none
  | c1 :: c2 :: rest =>
    if c1.isDigit && c2.isDigit && decide (10 * digitVal c1 + digitVal c2 ≤ maxv) then
      some (10 * digitVal c1 + digitVal c2, rest)
    else if c1.isDigit then
      some (digitVal c1, c2 :: rest)
    else none

/-- Model of datetime.strptime(s, an hour-colon-minute format).time(), as
used by SchedulerService: accepts an hour field 0..23, a colon, a minute
field 0..59 and nothing else; the result is seconds since midnight.
Returns none where strptime raises ValueError. -/
def parseHHMM (s : String) : Option Nat :=
  match parseField2 23 s.toList with
  | some (h, c :: rest) =>
    if c = ':' then
      match parseField2 59 rest with
      | some (m, []) => some (3600 * h + 60 * m)
      | _ => none
    else none
  | _ => none

/-- Result of the eligibility check: the returned boolean and the task
state after the possible completed-to-idle reset side effect. -/
structure ShouldExecResult where
  ready : Bool
  task : TaskState
deriving DecidableEq, Repr

/-- Shallow embedding of SchedulerService.shouldExecuteTask, the private
eligibility check (service.py lines 190-227).  current_time is the
wall-clock time of day in seconds, now the absolute timestamp used for
the interval check.  A parse failure of either schedule string lands in
the except branch of the source, which logs and returns False. -/
def shouldExecuteTask (task : TaskState) (current_time : ℚ) (now : ℚ) :
    ShouldExecResult :=
  if task.enabled = false then ⟨false, task⟩
  else if task.status = TStatus.running then ⟨false, task⟩
  else
    match parseHHMM task.daily_start_time, parseHHMM task.daily_end_time with
    | some task_start, some task_end =>
      if ¬ ((task_start : ℚ) ≤ current_time ∧ current_time ≤ (task_end : ℚ)) then
        ⟨false, task⟩
      else
        let intervalReached :=
          match task.lastRun with
          | some lr => !decide ((now - lr) / 60 < task.interval_minutes)
          | none => true
        if intervalReached = false then ⟨false, task⟩
        else if task.status = TStatus.completed then
          ⟨true, { task with status := TStatus.idle }⟩
        else ⟨true, task⟩
    | _, _ => ⟨false, task⟩

/-- The news-summary task schedule shipped by the repository
(tasks/configs/news_summary_pipeline.py, schedule block). -/
def demoTask : TaskState :=
  { name := "news_summary", enabled := true, status := TStatus.idle,
    lastRun := none, error := none,
    daily_start_time := "00:00", daily_end_time := "23:59",
    interval_minutes := 15 }

/-- Scalar Python value appearing in a task configuration dictionary. -/
inductive PyLeaf where
  | str : String → PyLeaf
  | int : Int → PyLeaf
deriving DecidableEq, Repr

/-- Python value stored under a key of a task configuration: either a
scalar or one further level of dictionary, which is all the repository
configurations use (the context sub-dictionary holds scalars). -/
inductive PyVal where
  | leaf : PyLeaf → PyVal
  | dict : List (String × PyLeaf) → PyVal
deriving DecidableEq, Repr

/-- A Python dictionary with string keys, as an association list. -/
abbrev PyDict := List (String × PyVal)

/-- First-match association-list lookup, the dict indexing operation. -/
def dictLookup (d : PyDict) (key : String) : Option PyVal :=
  match d with
  | [] => none
  | (k, v) :: rest => if k = key then some v else dictLookup rest key

/-- State of a PipelineTask (tasks/pipeline.py): the ScheduledTask fields
plus the stored configuration dictionary. -/
structure PipelineTaskState extends TaskState where
  config : PyDict
deriving DecidableEq, Repr

/-- Shallow embedding of PipelineTask.execute (tasks/pipeline.py lines
20-33).  The wrapped asynchronous pipeline function is the parameter f;
its single invocation receives the whole stored config dictionary as its
keyword arguments — the source line is a call of pipeline_func with
self.config double-star-unpacked.  The components of the result are the
task state on exit, the outcome visible to the caller (ok, or the raised
TaskExecutionError message), and the list of keyword-argument
dictionaries passed to the pipeline function. -/
def executeTask (t : PipelineTaskState)
    (f : PyDict → Except String Unit) (now : ℚ) :
    PipelineTaskState × Except String Unit × List PyDict :=
  let t1 := { t with status := TStatus.running, error := none, lastRun := some now }
  match f t.config with
  | Except.ok _ => ({ t1 with status := TStatus.completed }, Except.ok (), [t.config])
  | Except.error e =>
    ({ t1 with status := TStatus.failed, error := some e },
     Except.error ("Pipeline execution failed for " ++ t.name ++ ": " ++ e),
     [t.config])

/-- Modelled from the spec: the keyword arguments the spec says the
pipeline function receives, namely the entries of the context entry of
the configuration dictionary (the spec section 4.2 delegation sentence).
Missing from src only in the sense that no code computes this value; the
source passes the whole config instead. -/
def specCallKwargs (cfg : PyDict) : Option PyDict :=
  match dictLookup cfg "context" with
  | some (PyVal.dict d) => some (d.map (fun p => (p.1, PyVal.leaf p.2)))
  | _ => none

/-- The context sub-dictionary of the shipped news-summary configuration
(tasks/configs/news_summary_pipeline.py lines 13-19). -/
def newsContext : List (String × PyLeaf) :=
  [("source_type", PyLeaf.str "tw"),
   ("source", PyLeaf.str "TW_Stock_Summary"),
   ("limit", PyLeaf.int 150)]

/-- The full config dictionary of the shipped news-summary task. -/
def newsConfig : PyDict := [("context", PyVal.dict newsContext)]

/-- The shipped news-summary PipelineTask as registered. -/
def newsTask : PipelineTaskState := { demoTask with config := newsConfig }

/-- The metrics dictionary of the SchedulerService (service.py lines
31-35): counters and the running average in seconds. -/
structure Metrics where
  tasks_executed : ℕ
  tasks_failed : ℕ
  average_execution_time : ℚ
deriving DecidableEq, Repr

/-- Metrics as initialised by SchedulerService.init. -/
def initMetrics : Metrics := ⟨0, 0, 0⟩

/-- Shallow embedding of the metrics bookkeeping of one worker dispatch
(service.py lines 134-150).  ok tells whether the awaited execute call
returned (incrementing tasks_executed) or raised (incrementing
tasks_failed); elapsed is the measured duration.  The finally block then
recomputes the running average dividing by the current tasks_executed;
when that counter is zero the division raises ZeroDivisionError, giving
none. -/
def workerDispatch (m : Metrics) (ok : Bool) (elapsed : ℚ) : Option Metrics :=
  let m1 :=
    if ok then { m with tasks_executed := m.tasks_executed + 1 }
    else { m with tasks_failed := m.tasks_failed + 1 }
  if m1.tasks_executed = 0 then none
  else some { m1 with average_execution_time :=
    (m1.average_execution_time * ((m1.tasks_executed : ℚ) - 1) + elapsed) /
      (m1.tasks_executed : ℚ) }

/-- A sequence of worker dispatches folded over the metrics, each given
as the pair of its success flag and its elapsed duration. -/
def runDispatches : List (Bool × ℚ) → Metrics → Option Metrics
  | [], m => some m
  | d :: rest, m =>
    match workerDispatch m d.1 d.2 with
    | some m1 => runDispatches rest m1
    | none => none

/-- The pydantic TaskConfig model (models.py lines 5-16).  Its only
fields are start_time, end_time, interval_seconds and enabled; in
particular it has no schedule attribute. -/
structure TaskConfig where
  start_time : Option ℚ
  end_time : Option ℚ
  interval_seconds : ℤ
  enabled : Bool
deriving DecidableEq, Repr

/-- Service lifecycle status string of the SchedulerService. -/
inductive ServiceStatus where
  | stopped
  | running
deriving DecidableEq, Repr

/-- The observable state of the SchedulerService singleton (service.py
lines 18-37): the task registry, the pydantic config registry, the
service status, the licensing window, how many workers have been
launched, whether the scheduler loop activity exists and is not done,
and whether a loop sleep is pending (a live sleep task). -/
structure SchedState where
  tasks : List (String × TaskState)
  task_configs : List (String × TaskConfig)
  service_status : ServiceStatus
  start_datetime : Option ℚ
  license_end_datetime : Option ℚ
  worker_count : ℕ
  scheduler_loop_active : Bool
  sleep_pending : Bool
deriving DecidableEq, Repr

/-- Python exceptions raised by the scheduler operations modelled here. -/
inductive SchedErr where
  | taskNotFound : String → SchedErr
  | serviceState : String → SchedErr
  | attributeError : String → SchedErr
deriving DecidableEq, Repr

/-- First-match lookup in an association list of tasks or configs. -/
def assocLookup {α : Type} (d : List (String × α)) (key : String) : Option α :=
  match d with
  | [] => none
  | (k, v) :: rest => if k = key then some v else assocLookup rest key

/-- Replace the value stored under a key, leaving other entries alone. -/
def assocSet {α : Type} (d : List (String × α)) (key : String) (v : α) :
    List (String × α) :=
  d.map (fun p => if p.1 = key then (key, v) else p)

/-- SchedulerService.max_workers (service.py line 29). -/
def maxWorkers : ℕ := 3

/-- Shallow embedding of SchedulerService.start_service (service.py
lines 61-82).  Python methods mutate self, so the embedding returns the
state after the call together with the exception raised, if any: the
license check happens before any assignment, so a failure leaves the
state untouched; otherwise the window is stored, the status set to
running, max_workers further workers launched, and the scheduler loop
created when none is active. -/
def startService (st : SchedState) (now start_dt license_end : ℚ) :
    SchedState × Option SchedErr :=
  if now > license_end then
    (st, some (SchedErr.serviceState "License has expired"))
  else
    let st1 := { st with
      start_datetime := some start_dt,
      license_end_datetime := some license_end,
      service_status := ServiceStatus.running,
      worker_count := st.worker_count + maxWorkers }
    if st1.scheduler_loop_active = false then
      ({ st1 with scheduler_loop_active := true }, none)
    else
      (st1, none)

/-- The schedule dictionary accepted by update_task_schedule, holding
the four fields the claim requires it to contain. -/
structure ScheduleConfig where
  daily_start_time : String
  daily_end_time : String
  interval_minutes : ℚ
  enabled : Bool
deriving DecidableEq, Repr

/-- Shallow embedding of SchedulerService.update_task_schedule
(service.py lines 240-260).  An unknown id raises TaskNotFoundError.
Otherwise the four schedule fields of the live task are assigned in
place; then, when the id also appears in task_configs, the source
accesses the schedule attribute of the stored pydantic TaskConfig — an
attribute that model does not define — so Python raises AttributeError
there and the sleep-cancellation below it is never reached.  When the id
is absent from task_configs the pending sleep is cancelled. -/
def updateTaskSchedule (st : SchedState) (task_id : String)
    (config : ScheduleConfig) : SchedState × Option SchedErr :=
  match assocLookup st.tasks task_id with
  | none => (st, some (SchedErr.taskNotFound ("Task " ++ task_id ++ " not found")))
  | some task =>
    let task1 := { task with
      daily_start_time := config.daily_start_time,
      daily_end_time := config.daily_end_time,
      interval_minutes := config.interval_minutes,
      enabled := config.enabled }
    let st1 := { st with tasks := assocSet st.tasks task_id task1 }
    if (assocLookup st1.task_configs task_id).isSome then
      (st1, some (SchedErr.attributeError
        "TaskConfig object has no attribute schedule"))
    else
      ({ st1 with sleep_pending := false }, none)

/-- State of one registered task under the cooperative event loop: the
task itself, how many references to it sit in the task queue, and how
many invocations of its execute are currently in flight (entered but not
yet returned). -/
structure ConcState where
  task : TaskState
  queued : ℕ
  inFlight : ℕ
deriving DecidableEq, Repr

/-- Atomic segments of the event loop touching one task.  Each value is
one stretch of code between suspension points of the source:
loopEnqueue is a scheduler-loop pass over the task (the eligibility
check followed by the queue put, service.py lines 165-172); workerBegin
is a worker popping the task and entering its execute up to the await of
the pipeline function (lines 133-138 then pipeline.py lines 23-27);
manualBegin is the running check of start_task followed by entering execute
the same way (lines 229-238); execEndOk and execEndFail are the tail of
an execute resuming after the pipeline function finished (pipeline.py
lines 29-33). -/
inductive ConcAct where
  | loopEnqueue
  | workerBegin
  | manualBegin
  | execEndOk
  | execEndFail
deriving DecidableEq, Repr

/-- One atomic step of the interleaving semantics: none means the
segment is not enabled there (its guard raised or blocked instead).
current_time and now are the clock readings of the segment. -/
def concStep (current_time now : ℚ) : ConcAct → ConcState → Option ConcState
  | ConcAct.loopEnqueue, s =>
    let r := shouldExecuteTask s.task current_time now
    if r.ready then some { s with task := r.task, queued := s.queued + 1 }
    else none
  | ConcAct.workerBegin, s =>
    if s.queued = 0 then none
    else some { s with
      queued := s.queued - 1,
      task := { s.task with status := TStatus.running, error := none, lastRun := some now },
      inFlight := s.inFlight + 1 }
  | ConcAct.manualBegin, s =>
    if s.task.status = TStatus.running then none
    else some { s with
      task := { s.task with status := TStatus.running, error := none, lastRun := some now },
      inFlight := s.inFlight + 1 }
  | ConcAct.execEndOk, s =>
    if s.inFlight = 0 then none
    else some { s with
      task := { s.task with status := TStatus.completed },
      inFlight := s.inFlight - 1 }
  | ConcAct.execEndFail, s =>
    if s.inFlight = 0 then none
    else some { s with
      task := { s.task with status := TStatus.failed },
      inFlight := s.inFlight - 1 }

/-- Run a finite schedule of atomic segments from a state; none if some
segment of the list is not enabled where it occurs. -/
def runConc (current_time now : ℚ) : List ConcAct → ConcState → Option ConcState
  | [], s => some s
  | a :: rest, s =>
    match concStep current_time now a s with
    | some s1 => runConc current_time now rest s1
    | none => none

/-- A registered scheduler state: the news-summary task registered the
way the package initializer does (written straight into tasks, with no
pydantic config entry), service stopped, a loop sleep pending. -/
def demoState : SchedState :=
  { tasks := [("news_summary", demoTask)],
    task_configs := [],
    service_status := ServiceStatus.stopped,
    start_datetime := none,
    license_end_datetime := none,
    worker_count := 0,
    scheduler_loop_active := false,
    sleep_pending := true }

/-- The same state after a register_task call that also supplied a
config dictionary, so task_configs holds a pydantic TaskConfig under the
same id. -/
def demoStateWithConfig : SchedState :=
  { demoState with
    task_configs := [("news_summary",
      { start_time := none, end_time := none,
        interval_seconds := 3600, enabled := true })] }

/-- The schedule dictionary of the update example in the repository. -/
def demoSchedule : ScheduleConfig :=
  { daily_start_time := "09:00", daily_end_time := "17:30",
    interval_minutes := 5, enabled := true }

end Sched

namespace Pipe

open Sched (PyLeaf PyVal PyDict dictLookup)

/-- Python dict.update: keys already present keep their place and take
the new value, fresh keys are appended in order. -/
def dictUpdate (d new : PyDict) : PyDict :=
  d.map (fun p => match dictLookup new p.1 with
    | some v => (p.1, v)
    | none => p)
  ++ new.filter (fun p => (dictLookup d p.1).isNone)

/-- A pipeline step as consumed by PipelineExecutor (processors/base.py
interface): the class name used in log and error messages, the validate
predicate, and the execute body returning either the partial-context map
to merge or a raised exception message. -/
structure Step where
  name : String
  validate : PyDict → Bool
  execute : PyDict → Except String PyDict

/-- Observable events of one executor run: validate was called, execute
was called, the success hook ran on the step output, the failure hook
ran with an error message. -/
inductive PipeEvent where
  | validated : String → PipeEvent
  | ran : String → PipeEvent
  | succeeded : String → PipeEvent
  | failedHook : String → String → PipeEvent
deriving DecidableEq, Repr

/-- The ValueError message raised when the validate of a step returns False
(executor.py line 48). -/
def valFailMsg (name : String) : String := "Task validation failed: " ++ name

/-- Result of one PipelineExecutor.execute run: the event trace, the
shared context and accumulated result dictionaries on exit, and the
outcome (the returned result dictionary, or the re-raised exception). -/
structure ExecOutcome where
  trace : List PipeEvent
  context : PyDict
  result : PyDict
  outcome : Except String PyDict

/-- Shallow embedding of PipelineExecutor.execute (executor.py lines
38-65).  Per step in order: validate; a False verdict raises a
ValueError which the step-level handler catches, feeding the failure
hook before re-raising; a True verdict runs execute, merges the returned
map into the shared context and the accumulated result, then fires the
success hook; an exception from execute feeds the failure hook once and
is re-raised, aborting the remaining steps. -/
def runSteps : List Step → PyDict → PyDict → ExecOutcome
  | [], ctx, res => ⟨[], ctx, res, Except.ok res⟩
  | s :: rest, ctx, res =>
    if s.validate ctx then
      match s.execute ctx with
      | Except.ok out =>
        let r := runSteps rest (dictUpdate ctx out) (dictUpdate res out)
        ⟨PipeEvent.validated s.name :: PipeEvent.ran s.name ::
           PipeEvent.succeeded s.name :: r.trace,
         r.context, r.result, r.outcome⟩
      | Except.error e =>
        ⟨[PipeEvent.validated s.name, PipeEvent.ran s.name,
          PipeEvent.failedHook s.name e],
         ctx, res, Except.error e⟩
    else
      ⟨[PipeEvent.validated s.name,
        PipeEvent.failedHook s.name (valFailMsg s.name)],
       ctx, res, Except.error (valFailMsg s.name)⟩

/-- PipelineExecutor.execute started on a caller-seeded context: the
accumulated result dictionary starts empty (executor.py line 40). -/
def executePipeline (steps : List Step) (ctx : PyDict) : ExecOutcome :=
  runSteps steps ctx []

/-- All steps of the list validate and execute successfully when run in
order from the given context. -/
def allOk : List Step → PyDict → Bool
  | [], _ => true
  | s :: rest, ctx =>
    s.validate ctx &&
      match s.execute ctx with
      | Except.ok out => allOk rest (dictUpdate ctx out)
      | Except.error _ => false

/-- Shared context after a list of successful steps. -/
def ctxAfter : List Step → PyDict → PyDict
  | [], ctx => ctx
  | s :: rest, ctx =>
    match s.execute ctx with
    | Except.ok out => ctxAfter rest (dictUpdate ctx out)
    | Except.error _ => ctx

/-- Accumulated result after a list of successful steps. -/
def resAfter : List Step → PyDict → PyDict → PyDict
  | [], _, res => res
  | s :: rest, ctx, res =>
    match s.execute ctx with
    | Except.ok out => resAfter rest (dictUpdate ctx out) (dictUpdate res out)
    | Except.error _ => res

/-- Event trace emitted by a list of successful steps. -/
def okTrace : List Step → PyDict → List PipeEvent
  | [], _ => []
  | s :: rest, ctx =>
    match s.execute ctx with
    | Except.ok out =>
      PipeEvent.validated s.name :: PipeEvent.ran s.name ::
        PipeEvent.succeeded s.name :: okTrace rest (dictUpdate ctx out)
    | Except.error _ => []

/-- A fetch-like step that always validates and contributes one key
(shaped like FetchArticlesTask). -/
def fetchStep : Step :=
  ⟨"FetchArticlesTask", fun _ => true,
   fun _ => Except.ok [("articles", PyVal.leaf (PyLeaf.int 3))]⟩

/-- A summarize-like step whose precondition needs a summary key that no
earlier step provides. -/
def summarizeStep : Step :=
  ⟨"GenerateSummariesTask", fun ctx => (dictLookup ctx "summary").isSome,
   fun _ => Except.ok []⟩

/-- A process-like step whose execute raises. -/
def crashStep : Step :=
  ⟨"ProcessArticlesTask", fun _ => true, fun _ => Except.error "boom"⟩

end Pipe

namespace Pipe

open Sched (PyLeaf PyVal PyDict dictLookup)

/-- Running a successful prefix composes: the run of pre concatenated
with rest is the pre trace followed by the run of rest from the advanced
context and result. -/
theorem runSteps_append (pre rest : List Step) (ctx res : PyDict)
    (h : allOk pre ctx = true) :
    runSteps (pre ++ rest) ctx res =
      ⟨okTrace pre ctx ++ (runSteps rest (ctxAfter pre ctx) (resAfter pre ctx res)).trace,
       (runSteps rest (ctxAfter pre ctx) (resAfter pre ctx res)).context,
       (runSteps rest (ctxAfter pre ctx) (resAfter pre ctx res)).result,
       (runSteps rest (ctxAfter pre ctx) (resAfter pre ctx res)).outcome⟩ := by
  induction pre generalizing ctx res with
  | nil => simp [runSteps, okTrace, ctxAfter, resAfter]
  | cons s pre ih =>
    simp only [allOk, Bool.and_eq_true] at h
    obtain ⟨hv, hrest⟩ := h
    cases hex : s.execute ctx with
    | ok out =>
      rw [hex] at hrest
      have hcomp := ih (dictUpdate ctx out) (dictUpdate res out) hrest
      simp only [List.cons_append, runSteps, hv, if_true, hex, okTrace, ctxAfter, resAfter,
        List.append_eq, hcomp, List.cons_append]
    | error e => rw [hex] at hrest; exact absurd hrest (by simp)

/-- The trace of a successful prefix contains no failure-hook event. -/
theorem okTrace_no_failedHook (pre : List Step) (ctx : PyDict)
    (nm msg : String) : PipeEvent.failedHook nm msg ∉ okTrace pre ctx := by
  induction pre generalizing ctx with
  | nil => simp [okTrace]
  | cons s pre ih =>
    simp only [okTrace]
    cases s.execute ctx with
    | ok out =>
      intro hmem
      simp only [List.mem_cons] at hmem
      rcases hmem with h | h | h | h
      · exact PipeEvent.noConfusion h
      · exact PipeEvent.noConfusion h
      · exact PipeEvent.noConfusion h
      · exact ih _ h
    | error e => simp

/-- C5: PipelineExecutor.execute walks the steps in registration order.
A step that validates and executes merges its returned map into both the
shared context and the accumulated result and fires its success hook
before the remaining steps run.  After a successful prefix, a step whose
validate returns false makes the run end with the validation error
naming that step: the trace holds no event of any later step and the
accumulated result is exactly that of the prefix, containing no key
contributed from the failing step onward.  After a successful prefix, a
step whose execute raises makes the run end with that exception: its
failure hook event is emitted, no event of a later step appears, and the
context and result merged by earlier steps are retained, not rolled
back.  A successful prefix never emits a failure-hook event, so on the
aborting runs the failure hook fires exactly once. -/
theorem C5_executor_algorithm :
    (∀ (s : Step) (rest : List Step) (ctx res out : PyDict),
      s.validate ctx = true → s.execute ctx = Except.ok out →
      runSteps (s :: rest) ctx res =
        ⟨PipeEvent.validated s.name :: PipeEvent.ran s.name ::
           PipeEvent.succeeded s.name ::
           (runSteps rest (dictUpdate ctx out) (dictUpdate res out)).trace,
         (runSteps rest (dictUpdate ctx out) (dictUpdate res out)).context,
         (runSteps rest (dictUpdate ctx out) (dictUpdate res out)).result,
         (runSteps rest (dictUpdate ctx out) (dictUpdate res out)).outcome⟩) ∧
    (∀ (pre : List Step) (s : Step) (post : List Step) (ctx res : PyDict),
      allOk pre ctx = true → s.validate (ctxAfter pre ctx) = false →
      runSteps (pre ++ s :: post) ctx res =
        ⟨okTrace pre ctx ++ [PipeEvent.validated s.name,
           PipeEvent.failedHook s.name (valFailMsg s.name)],
         ctxAfter pre ctx, resAfter pre ctx res,
         Except.error (valFailMsg s.name)⟩) ∧
    (∀ (pre : List Step) (s : Step) (post : List Step) (ctx res : PyDict)
       (e : String),
      allOk pre ctx = true → s.validate (ctxAfter pre ctx) = true →
      s.execute (ctxAfter pre ctx) = Except.error e →
      runSteps (pre ++ s :: post) ctx res =
        ⟨okTrace pre ctx ++ [PipeEvent.validated s.name, PipeEvent.ran s.name,
           PipeEvent.failedHook s.name e],
         ctxAfter pre ctx, resAfter pre ctx res, Except.error e⟩) ∧
    (∀ (pre : List Step) (ctx : PyDict) (nm msg : String),
      PipeEvent.failedHook nm msg ∉ okTrace pre ctx) := by
  refine ⟨?_, ?_, ?_, okTrace_no_failedHook⟩
  · intro s rest ctx res out hv hex
    simp [runSteps, hv, hex]
  · intro pre s post ctx res hpre hv
    rw [runSteps_append pre (s :: post) ctx res hpre]
    simp [runSteps, hv]
  · intro pre s post ctx res e hpre hv hex
    rw [runSteps_append pre (s :: post) ctx res hpre]
    simp [runSteps, hv, hex]

/-- Witness for C5: the three aborting and succeeding shapes evaluated
on concrete fetch, summarize and crash steps. -/
theorem C5_executor_algorithm_witness :
    (fetchStep.validate [] = true ∧
     fetchStep.execute [] =
       Except.ok [("articles", PyVal.leaf (PyLeaf.int 3))] ∧
     runSteps [fetchStep] [] [] =
       ⟨PipeEvent.validated fetchStep.name :: PipeEvent.ran fetchStep.name ::
          PipeEvent.succeeded fetchStep.name ::
          (runSteps [] (dictUpdate [] [("articles", PyVal.leaf (PyLeaf.int 3))])
            (dictUpdate [] [("articles", PyVal.leaf (PyLeaf.int 3))])).trace,
        (runSteps [] (dictUpdate [] [("articles", PyVal.leaf (PyLeaf.int 3))])
          (dictUpdate [] [("articles", PyVal.leaf (PyLeaf.int 3))])).context,
        (runSteps [] (dictUpdate [] [("articles", PyVal.leaf (PyLeaf.int 3))])
          (dictUpdate [] [("articles", PyVal.leaf (PyLeaf.int 3))])).result,
        (runSteps [] (dictUpdate [] [("articles", PyVal.leaf (PyLeaf.int 3))])
          (dictUpdate [] [("articles", PyVal.leaf (PyLeaf.int 3))])).outcome⟩) ∧
    (allOk [fetchStep] [] = true ∧
     summarizeStep.validate (ctxAfter [fetchStep] []) = false ∧
     runSteps ([fetchStep] ++ summarizeStep :: []) [] [] =
       ⟨okTrace [fetchStep] [] ++ [PipeEvent.validated summarizeStep.name,
          PipeEvent.failedHook summarizeStep.name (valFailMsg summarizeStep.name)],
        ctxAfter [fetchStep] [], resAfter [fetchStep] [] [],
        Except.error (valFailMsg summarizeStep.name)⟩) ∧
    (allOk [fetchStep] [] = true ∧
     crashStep.validate (ctxAfter [fetchStep] []) = true ∧
     crashStep.execute (ctxAfter [fetchStep] []) = Except.error "boom" ∧
     runSteps ([fetchStep] ++ crashStep :: []) [] [] =
       ⟨okTrace [fetchStep] [] ++ [PipeEvent.validated crashStep.name,
          PipeEvent.ran crashStep.name, PipeEvent.failedHook crashStep.name "boom"],
        ctxAfter [fetchStep] [], resAfter [fetchStep] [] [],
        Except.error "boom"⟩) :=
  ⟨⟨rfl, rfl,
    C5_executor_algorithm.1 fetchStep []
      [] [] [("articles", PyVal.leaf (PyLeaf.int 3))] rfl rfl⟩,
   ⟨rfl, rfl,
    C5_executor_algorithm.2.1 [fetchStep] summarizeStep [] [] [] rfl rfl⟩,
   ⟨rfl, rfl, rfl,
    C5_executor_algorithm.2.2.1 [fetchStep] crashStep [] [] [] "boom" rfl rfl rfl⟩⟩

/-- C9: when the validate of a step returns false after a successful prefix,
the executor feeds the failure hook of that same step with the validation
error exactly once, and the validation error is what propagates to the
caller. -/
theorem C9_failure_hook_on_validation (pre : List Step) (s : Step)
    (post : List Step) (ctx res : PyDict)
    (hpre : allOk pre ctx = true)
    (hv : s.validate (ctxAfter pre ctx) = false) :
    (runSteps (pre ++ s :: post) ctx res).trace.count
      (PipeEvent.failedHook s.name (valFailMsg s.name)) = 1 ∧
    (runSteps (pre ++ s :: post) ctx res).outcome =
      Except.error (valFailMsg s.name) := by
  rw [runSteps_append pre (s :: post) ctx res hpre]
  constructor
  · simp only [runSteps, hv, if_false, Bool.false_eq_true, List.count_append]
    rw [List.count_eq_zero.mpr (okTrace_no_failedHook pre ctx s.name (valFailMsg s.name))]
    simp [List.count_cons]
  · simp [runSteps, hv]

/-- Witness for C9: the summarize step aborting after the fetch step. -/
theorem C9_failure_hook_on_validation_witness :
    allOk [fetchStep] [] = true ∧
    summarizeStep.validate (ctxAfter [fetchStep] []) = false ∧
    (runSteps ([fetchStep] ++ summarizeStep :: []) [] []).trace.count
      (PipeEvent.failedHook summarizeStep.name (valFailMsg summarizeStep.name)) = 1 :=
  ⟨rfl, rfl,
   (C9_failure_hook_on_validation [fetchStep] summarizeStep [] [] [] rfl rfl).1⟩

end Pipe

namespace Sched

/-- On an all-successful dispatch sequence the counters and the weighted
average advance as a running mean: the executed counter grows by the
length of the sequence, the failed counter is untouched, and the new
average times the new counter extends the old weighted sum by the sum of
the new durations. -/
theorem runDispatches_allOk (ds : List (Bool × ℚ)) :
    ∀ n f : ℕ, ∀ a : ℚ, (∀ x ∈ ds, x.1 = true) →
      ∃ m, runDispatches ds ⟨n, f, a⟩ = some m ∧
        m.tasks_executed = n + ds.length ∧ m.tasks_failed = f ∧
        m.average_execution_time * ((n : ℚ) + ds.length) =
          a * (n : ℚ) + (ds.map Prod.snd).sum := by
  induction ds with
  | nil =>
    intro n f a _
    exact ⟨⟨n, f, a⟩, rfl, by simp, rfl, by simp⟩
  | cons d rest ih =>
    intro n f a hall
    have hd : d.1 = true := hall d (List.mem_cons_self d rest)
    obtain ⟨ok, el⟩ := d
    simp only at hd
    subst hd
    have hne : ((n + 1 : ℕ) : ℚ) ≠ 0 := Nat.cast_ne_zero.mpr (Nat.succ_ne_zero n)
    obtain ⟨m, hrun, he, hf, ha⟩ :=
      ih (n + 1) f ((a * (((n + 1 : ℕ) : ℚ) - 1) + el) / ((n + 1 : ℕ) : ℚ))
        (fun x hx => hall x (List.mem_cons_of_mem _ hx))
    refine ⟨m, ?_, ?_, hf, ?_⟩
    · simpa [runDispatches, workerDispatch] using hrun
    · simp only [List.length_cons]
      omega
    · have hcancel : (a * (((n + 1 : ℕ) : ℚ) - 1) + el) / ((n + 1 : ℕ) : ℚ) *
          ((n + 1 : ℕ) : ℚ) = a * (((n + 1 : ℕ) : ℚ) - 1) + el :=
        div_mul_cancel₀ _ hne
      simp only [List.length_cons, List.map_cons, List.sum_cons]
      push_cast at ha hcancel ⊢
      linear_combination ha + hcancel

/-- Successful bookkeeping of a successful dispatch, solved for the new
metrics record. -/
theorem workerDispatch_true_eq (m : Metrics) (d : ℚ) (m1 : Metrics)
    (h : workerDispatch m true d = some m1) :
    m1 = ⟨m.tasks_executed + 1, m.tasks_failed,
      (m.average_execution_time * (m.tasks_executed : ℚ) + d) /
        ((m.tasks_executed : ℚ) + 1)⟩ := by
  simp [workerDispatch] at h
  exact h.symm

/-- Successful bookkeeping of a failing dispatch: only possible with a
nonzero executed counter, which then serves as the divisor. -/
theorem workerDispatch_false_eq (m : Metrics) (d : ℚ) (m1 : Metrics)
    (h : workerDispatch m false d = some m1) :
    m.tasks_executed ≠ 0 ∧
    m1 = ⟨m.tasks_executed, m.tasks_failed + 1,
      (m.average_execution_time * ((m.tasks_executed : ℚ) - 1) + d) /
        (m.tasks_executed : ℚ)⟩ := by
  by_cases h0 : m.tasks_executed = 0
  · simp [workerDispatch, h0] at h
  · simp [workerDispatch, h0] at h
    exact ⟨h0, h.symm⟩

/-- Each completed dispatch grows the sum of the two counters by one. -/
theorem runDispatches_counters (ds : List (Bool × ℚ)) :
    ∀ m m1, runDispatches ds m = some m1 →
      m1.tasks_executed + m1.tasks_failed =
        m.tasks_executed + m.tasks_failed + ds.length := by
  induction ds with
  | nil =>
    intro m m1 h
    simp [runDispatches] at h
    subst h
    simp
  | cons d rest ih =>
    intro m m1 h
    simp only [runDispatches] at h
    cases hw : workerDispatch m d.1 d.2 with
    | none => rw [hw] at h; exact absurd h (by simp)
    | some mid =>
      rw [hw] at h
      have hsum := ih mid m1 h
      obtain ⟨ok, del⟩ := d
      cases ok
      · obtain ⟨h0, hmid⟩ := workerDispatch_false_eq m del mid hw
        subst hmid
        simp only [List.length_cons] at hsum ⊢
        omega
      · have hmid := workerDispatch_true_eq m del mid hw
        subst hmid
        simp only [List.length_cons] at hsum ⊢
        omega

/-- The eligibility verdict is true exactly when the task is enabled,
not running, inside its parsed daily window, and past its interval. -/
theorem shouldExecute_ready_iff (task : TaskState) (ct now : ℚ) (ts te : ℕ)
    (hs : parseHHMM task.daily_start_time = some ts)
    (he : parseHHMM task.daily_end_time = some te) :
    (shouldExecuteTask task ct now).ready = true ↔
      (task.enabled = true ∧ task.status ≠ TStatus.running ∧
       (ts : ℚ) ≤ ct ∧ ct ≤ (te : ℚ) ∧
       (task.lastRun = none ∨
        ∃ lr, task.lastRun = some lr ∧
          task.interval_minutes ≤ (now - lr) / 60)) := by
  unfold shouldExecuteTask
  rw [hs, he]
  by_cases h1 : task.enabled = false
  · simp [h1]
  · by_cases h2 : task.status = TStatus.running
    · simp [h1, h2]
    · by_cases h3 : (ts : ℚ) ≤ ct ∧ ct ≤ (te : ℚ)
      · cases hlr : task.lastRun with
        | none =>
          by_cases h5 : task.status = TStatus.completed <;>
            simp [h1, h2, h3, h5, Bool.not_eq_false]
        | some lr =>
          by_cases h4 : (now - lr) / 60 < task.interval_minutes
          · simp [h1, h2, h3, h4, not_le.mpr h4]
          · by_cases h5 : task.status = TStatus.completed <;>
              simp [h1, h2, h3, h4, h5, not_lt.mp h4, Bool.not_eq_false]
      · simp [h1, h2, h3]
        tauto

/-- On a positive verdict the only state change is the completed-to-idle
reset; a negative verdict changes nothing. -/
theorem shouldExecute_task_eq (task : TaskState) (ct now : ℚ) :
    (shouldExecuteTask task ct now).task =
      (if (shouldExecuteTask task ct now).ready = true ∧
          task.status = TStatus.completed then
        { task with status := TStatus.idle }
      else task) := by
  unfold shouldExecuteTask
  by_cases h1 : task.enabled = false
  · simp [h1]
  · by_cases h2 : task.status = TStatus.running
    · simp [h1, h2]
    · cases hs : parseHHMM task.daily_start_time with
      | none => simp [h1, h2]
      | some ts =>
        cases he : parseHHMM task.daily_end_time with
        | none => simp [h1, h2]
        | some te =>
          by_cases h3 : (ts : ℚ) ≤ ct ∧ ct ≤ (te : ℚ)
          · cases hlr : task.lastRun with
            | none =>
              by_cases h5 : task.status = TStatus.completed <;> simp [h1, h2, h3, h5]
            | some lr =>
              by_cases h4 : (now - lr) / 60 < task.interval_minutes
              · simp [h1, h2, h3, h4]
              · by_cases h5 : task.status = TStatus.completed <;>
                  simp [h1, h2, h3, h4, h5]
          · simp [h1, h2, h3]

/-- C2 counterexample: two worker dispatches, a success lasting 2
seconds then a failure lasting 4 seconds.  Each incremented exactly one
counter and the counters sum to 2, but the recorded
average_execution_time is 4 while the arithmetic mean of the two
durations is 3: the failure path folds the elapsed time in with the
unincremented executed counter as divisor, so the claimed mean equality
fails. -/
theorem C2_counterexample :
    runDispatches [(true, 2), (false, 4)] initMetrics = some ⟨1, 1, 4⟩ ∧
    ((2 : ℚ) + 4) / 2 = 3 ∧ (4 : ℚ) ≠ 3 := by
  refine ⟨?_, by norm_num, by norm_num⟩
  norm_num [runDispatches, workerDispatch, initMetrics]

/-- C2 amended: every completed dispatch increments exactly one of
tasks_executed and tasks_failed, so their sum afterwards is the number
of dispatches; a successful dispatch updates the average by the
running-average formula whose divisor is tasks_executed after
incrementing; a failing dispatch leaves tasks_executed alone and reuses
it unincremented as the divisor — in particular a failure before any
success divides by zero — and consequently the average equals the
arithmetic mean of the durations when every dispatch succeeded. -/
theorem C2_amended_metrics :
    (∀ (m : Metrics) (ok : Bool) (d : ℚ) (m1 : Metrics),
      workerDispatch m ok d = some m1 →
      m1.tasks_executed + m1.tasks_failed =
        m.tasks_executed + m.tasks_failed + 1 ∧
      (ok = true → m1.tasks_executed = m.tasks_executed + 1 ∧
        m1.tasks_failed = m.tasks_failed ∧
        m1.average_execution_time =
          (m.average_execution_time * ((m1.tasks_executed : ℚ) - 1) + d) /
            (m1.tasks_executed : ℚ)) ∧
      (ok = false → m1.tasks_executed = m.tasks_executed ∧
        m1.tasks_failed = m.tasks_failed + 1 ∧
        m1.average_execution_time =
          (m.average_execution_time * ((m.tasks_executed : ℚ) - 1) + d) /
            (m.tasks_executed : ℚ))) ∧
    (∀ (ds : List (Bool × ℚ)) (m : Metrics),
      runDispatches ds initMetrics = some m →
      m.tasks_executed + m.tasks_failed = ds.length) ∧
    (∀ ds : List (Bool × ℚ), (∀ x ∈ ds, x.1 = true) →
      ∃ m, runDispatches ds initMetrics = some m ∧
        m.tasks_executed = ds.length ∧ m.tasks_failed = 0 ∧
        m.average_execution_time = (ds.map Prod.snd).sum / (ds.length : ℚ)) ∧
    (∀ d : ℚ, workerDispatch initMetrics false d = none) := by
  refine ⟨?_, ?_, ?_, fun d => rfl⟩
  · intro m ok d m1 hw
    cases ok
    · obtain ⟨h0, hm⟩ := workerDispatch_false_eq m d m1 hw
      subst hm
      refine ⟨by dsimp only; omega, by simp, fun _ => ⟨rfl, rfl, rfl⟩⟩
    · have hm := workerDispatch_true_eq m d m1 hw
      subst hm
      refine ⟨by dsimp only; omega, fun _ => ⟨rfl, rfl, ?_⟩, by simp⟩
      push_cast
      ring_nf
  · intro ds m h
    have := runDispatches_counters ds initMetrics m h
    simpa [initMetrics] using this
  · intro ds hall
    obtain ⟨m, hrun, he, hf, ha⟩ := runDispatches_allOk ds 0 0 0 hall
    refine ⟨m, hrun, by simpa using he, hf, ?_⟩
    rcases eq_or_ne ds [] with rfl | hne
    · simp only [runDispatches] at hrun
      cases hrun
      simp
    · have hlen : ((ds.length : ℕ) : ℚ) ≠ 0 :=
        Nat.cast_ne_zero.mpr (fun h0 => hne (List.length_eq_zero.mp h0))
      rw [eq_div_iff hlen]
      simpa using ha

/-- Witness for C2 amended: the three hypothesis-bearing parts applied
at concrete dispatches. -/
theorem C2_amended_metrics_witness :
    (workerDispatch initMetrics true 2 = some ⟨1, 0, 2⟩ ∧
     (⟨1, 0, 2⟩ : Metrics).tasks_executed + (⟨1, 0, 2⟩ : Metrics).tasks_failed =
       initMetrics.tasks_executed + initMetrics.tasks_failed + 1) ∧
    (runDispatches [(true, 2), (false, 4)] initMetrics = some ⟨1, 1, 4⟩ ∧
     (⟨1, 1, 4⟩ : Metrics).tasks_executed + (⟨1, 1, 4⟩ : Metrics).tasks_failed =
       [((true : Bool), (2 : ℚ)), (false, 4)].length) ∧
    ((∀ x ∈ [((true : Bool), (2 : ℚ)), (true, 4)], x.1 = true) ∧
     ∃ m, runDispatches [(true, 2), (true, 4)] initMetrics = some m ∧
       m.tasks_executed = [((true : Bool), (2 : ℚ)), (true, 4)].length ∧
       m.tasks_failed = 0 ∧
       m.average_execution_time =
         ([((true : Bool), (2 : ℚ)), (true, 4)].map Prod.snd).sum /
           (([((true : Bool), (2 : ℚ)), (true, 4)].length : ℕ) : ℚ)) := by
  have h1 : workerDispatch initMetrics true 2 = some ⟨1, 0, 2⟩ := by
    norm_num [workerDispatch, initMetrics]
  have h2 : runDispatches [(true, 2), (false, 4)] initMetrics = some ⟨1, 1, 4⟩ := by
    norm_num [runDispatches, workerDispatch, initMetrics]
  refine ⟨⟨h1, (C2_amended_metrics.1 initMetrics true 2 ⟨1, 0, 2⟩ h1).1⟩,
          ⟨h2, C2_amended_metrics.2.1 [(true, 2), (false, 4)] ⟨1, 1, 4⟩ h2⟩,
          ⟨by decide, C2_amended_metrics.2.2.1 [(true, 2), (true, 4)] (by decide)⟩⟩

/-- C3: the scheduler eligibility check returns true for a task
exactly when the task is enabled, its status is not running, the
current wall-clock time of day lies inclusively between the parsed
daily_start_time and daily_end_time, and last_run is unset or at least
interval_minutes minutes old; when it returns true and the status was
completed the status is reset to idle as a side effect, and otherwise
the task is left unchanged; a disabled task is never ready and the
enqueue step of the scheduler loop is never enabled for it. -/
theorem C3_eligibility (task : TaskState) (ct now : ℚ) (ts te : ℕ)
    (hs : parseHHMM task.daily_start_time = some ts)
    (he : parseHHMM task.daily_end_time = some te) :
    ((shouldExecuteTask task ct now).ready = true ↔
      (task.enabled = true ∧ task.status ≠ TStatus.running ∧
       (ts : ℚ) ≤ ct ∧ ct ≤ (te : ℚ) ∧
       (task.lastRun = none ∨
        ∃ lr, task.lastRun = some lr ∧
          task.interval_minutes ≤ (now - lr) / 60))) ∧
    ((shouldExecuteTask task ct now).ready = true →
      task.status = TStatus.completed →
      (shouldExecuteTask task ct now).task =
        { task with status := TStatus.idle }) ∧
    ((shouldExecuteTask task ct now).ready = true →
      task.status ≠ TStatus.completed →
      (shouldExecuteTask task ct now).task = task) ∧
    ((shouldExecuteTask task ct now).ready = false →
      (shouldExecuteTask task ct now).task = task) ∧
    (task.enabled = false →
      (shouldExecuteTask task ct now).ready = false ∧
      ∀ q fl, concStep ct now ConcAct.loopEnqueue ⟨task, q, fl⟩ = none) := by
  refine ⟨shouldExecute_ready_iff task ct now ts te hs he, ?_, ?_, ?_, ?_⟩
  · intro hr hc
    rw [shouldExecute_task_eq, if_pos ⟨hr, hc⟩]
  · intro hr hc
    rw [shouldExecute_task_eq, if_neg]
    intro hand
    exact hc hand.2
  · intro hr
    rw [shouldExecute_task_eq, if_neg]
    intro hand
    rw [hand.1] at hr
    exact Bool.true_eq_false.mp hr
  · intro hdis
    have hready : (shouldExecuteTask task ct now).ready = false := by
      unfold shouldExecuteTask
      simp [hdis]
    refine ⟨hready, fun q fl => ?_⟩
    unfold concStep
    simp [hready]

/-- Witness for C3 at the shipped news-summary schedule and a clock at
ten in the morning. -/
theorem C3_eligibility_witness :
    parseHHMM demoTask.daily_start_time = some 0 ∧
    parseHHMM demoTask.daily_end_time = some 86340 ∧
    ((shouldExecuteTask demoTask 36000 0).ready = true ↔
      (demoTask.enabled = true ∧ demoTask.status ≠ TStatus.running ∧
       ((0 : ℕ) : ℚ) ≤ 36000 ∧ (36000 : ℚ) ≤ ((86340 : ℕ) : ℚ) ∧
       (demoTask.lastRun = none ∨
        ∃ lr, demoTask.lastRun = some lr ∧
          demoTask.interval_minutes ≤ ((0 : ℚ) - lr) / 60))) := by
  refine ⟨by decide, by decide, ?_⟩
  exact (C3_eligibility demoTask 36000 0 0 86340 (by decide) (by decide)).1

/-- C10: on a task whose daily_start_time or daily_end_time fails to
parse as an hour-minute string, the eligibility check catches the
strptime failure and returns false without mutating the task, rather
than propagating the exception into the scheduler loop. -/
theorem C10_malformed_schedule (task : TaskState) (ct now : ℚ)
    (h : parseHHMM task.daily_start_time = none ∨
         parseHHMM task.daily_end_time = none) :
    shouldExecuteTask task ct now = ⟨false, task⟩ := by
  unfold shouldExecuteTask
  by_cases h1 : task.enabled = false
  · simp [h1]
  · by_cases h2 : task.status = TStatus.running
    · simp [h1, h2]
    · cases hs : parseHHMM task.daily_start_time with
      | none => simp [h1, h2]
      | some ts =>
        cases he : parseHHMM task.daily_end_time with
        | none => simp [h1, h2]
        | some te => simp_all

/-- Witness for C10: a schedule whose start string is not parseable. -/
theorem C10_malformed_schedule_witness :
    (parseHHMM ({ demoTask with daily_start_time := "bogus" }).daily_start_time = none ∨
     parseHHMM ({ demoTask with daily_start_time := "bogus" }).daily_end_time = none) ∧
    shouldExecuteTask { demoTask with daily_start_time := "bogus" } 36000 0 =
      ⟨false, { demoTask with daily_start_time := "bogus" }⟩ :=
  ⟨Or.inl (by decide),
   C10_malformed_schedule { demoTask with daily_start_time := "bogus" } 36000 0
     (Or.inl (by decide))⟩

/-- C4: PipelineTask.execute stamps last_run with the entry time; a
normal return of the wrapped function exits with status completed and a
cleared error; an exception exits with status failed, the stringified
cause stored in error, and re-raises a TaskExecutionError naming the
task; neither exit path leaves the status at running. -/
theorem C4_execute_lifecycle (t : PipelineTaskState)
    (f : PyDict → Except String Unit) (now : ℚ) :
    (executeTask t f now).1.lastRun = some now ∧
    (executeTask t f now).1.status ≠ TStatus.running ∧
    (f t.config = Except.ok () →
      (executeTask t f now).1.status = TStatus.completed ∧
      (executeTask t f now).1.error = none ∧
      (executeTask t f now).2.1 = Except.ok ()) ∧
    (∀ e, f t.config = Except.error e →
      (executeTask t f now).1.status = TStatus.failed ∧
      (executeTask t f now).1.error = some e ∧
      (executeTask t f now).2.1 =
        Except.error ("Pipeline execution failed for " ++ t.name ++ ": " ++ e)) := by
  cases hf : f t.config with
  | ok u => cases u; refine ⟨?_, ?_, ?_, ?_⟩ <;> simp [executeTask, hf]
  | error e =>
    refine ⟨?_, ?_, ?_, ?_⟩ <;> simp [executeTask, hf]

/-- Witness for C4 on the shipped news-summary task, once under a
pipeline function that returns and once under one that raises. -/
theorem C4_execute_lifecycle_witness :
    ((fun (_ : PyDict) => (Except.ok () : Except String Unit)) newsTask.config =
        Except.ok () ∧
      (executeTask newsTask (fun _ => Except.ok ()) 7).1.status = TStatus.completed) ∧
    ((fun (_ : PyDict) => (Except.error "boom" : Except String Unit)) newsTask.config =
        Except.error "boom" ∧
      (executeTask newsTask (fun _ => Except.error "boom") 7).1.status = TStatus.failed) :=
  ⟨⟨rfl, ((C4_execute_lifecycle newsTask (fun _ => Except.ok ()) 7).2.2.1 rfl).1⟩,
   ⟨rfl, ((C4_execute_lifecycle newsTask (fun _ => Except.error "boom") 7).2.2.2 "boom" rfl).1⟩⟩

/-- C6 counterexample: PipelineTask.execute does not call the pipeline
function on the context entry of the config.  Feeding it a pipeline
function that succeeds precisely on the keyword arguments the claim
asserts it receives, the call fails: the function received the whole
config dictionary, whose sole key is context, instead of the unpacked
context entries. -/
theorem C6_counterexample :
    specCallKwargs newsConfig =
      some (newsContext.map (fun p => (p.1, PyVal.leaf p.2))) ∧
    newsConfig ≠ newsContext.map (fun p => (p.1, PyVal.leaf p.2)) ∧
    (executeTask newsTask
      (fun kw => if kw = newsContext.map (fun p => (p.1, PyVal.leaf p.2))
        then Except.ok () else Except.error "wrong kwargs") 0).2.2 = [newsConfig] ∧
    (executeTask newsTask
      (fun kw => if kw = newsContext.map (fun p => (p.1, PyVal.leaf p.2))
        then Except.ok () else Except.error "wrong kwargs") 0).2.1 =
      Except.error "Pipeline execution failed for news_summary: wrong kwargs" :=
  ⟨by decide, by decide, by decide, rfl⟩

/-- C6 amended: PipelineTask.execute invokes the wrapped pipeline
function exactly once, with the entries of the whole stored config
dictionary unpacked as its keyword arguments; for the shipped
news-summary config the function therefore receives the single keyword
argument context. -/
theorem C6_amended (t : PipelineTaskState)
    (f : PyDict → Except String Unit) (now : ℚ) :
    (executeTask t f now).2.2 = [t.config] := by
  cases hf : f t.config <;> simp [executeTask, hf]

/-- C8: start_service raises the licensing ServiceStateError exactly
when the current time is past license_end_datetime, and then leaves the
state untouched — a stopped service_status stays stopped and no worker
or loop activity is launched; otherwise it raises nothing, stores the
window, sets the status to running, launches the worker pool and leaves
the scheduler loop active. -/
theorem C8_start_service (st : SchedState) (now sd le : ℚ) :
    (now > le →
      startService st now sd le =
        (st, some (SchedErr.serviceState "License has expired"))) ∧
    (¬ now > le →
      (startService st now sd le).2 = none ∧
      (startService st now sd le).1.service_status = ServiceStatus.running ∧
      (startService st now sd le).1.start_datetime = some sd ∧
      (startService st now sd le).1.license_end_datetime = some le ∧
      (startService st now sd le).1.worker_count = st.worker_count + maxWorkers ∧
      (startService st now sd le).1.scheduler_loop_active = true ∧
      (startService st now sd le).1.tasks = st.tasks) := by
  constructor
  · intro h
    simp [startService, h]
  · intro h
    by_cases hl : st.scheduler_loop_active <;> simp [startService, h, hl]

/-- Witness for C8: an expired license leaves the demo state stopped and
untouched; a valid one starts it. -/
theorem C8_start_service_witness :
    ((10 : ℚ) > 5 ∧
     startService demoState 10 0 5 =
       (demoState, some (SchedErr.serviceState "License has expired")) ∧
     demoState.service_status = ServiceStatus.stopped) ∧
    (¬ (3 : ℚ) > 5 ∧
     (startService demoState 3 0 5).1.service_status = ServiceStatus.running) :=
  ⟨⟨by norm_num, (C8_start_service demoState 10 0 5).1 (by norm_num), rfl⟩,
   ⟨by norm_num, ((C8_start_service demoState 3 0 5).2 (by norm_num)).2.1⟩⟩

/-- C7: evaluation of update_task_schedule at its three shapes.  On the
demo state whose id also sits in task_configs, the call does set the
four schedule fields on the live task but then raises AttributeError —
the pydantic TaskConfig has no schedule attribute — and the pending
sleep is not cancelled, contradicting the claim that every registered id
succeeds and interrupts the sleep.  An unknown id raises
TaskNotFoundError, and an id absent from task_configs behaves as the
claim says. -/
theorem C7_update_schedule_eval :
    (updateTaskSchedule demoStateWithConfig "news_summary" demoSchedule).2 =
      some (SchedErr.attributeError "TaskConfig object has no attribute schedule") ∧
    (updateTaskSchedule demoStateWithConfig "news_summary" demoSchedule).1.sleep_pending
      = true ∧
    assocLookup
      (updateTaskSchedule demoStateWithConfig "news_summary" demoSchedule).1.tasks
      "news_summary" =
      some { demoTask with
             daily_start_time := "09:00", daily_end_time := "17:30",
             interval_minutes := 5, enabled := true } ∧
    (updateTaskSchedule demoStateWithConfig "missing" demoSchedule).2 =
      some (SchedErr.taskNotFound "Task missing not found") ∧
    (updateTaskSchedule demoState "news_summary" demoSchedule).2 = none ∧
    (updateTaskSchedule demoState "news_summary" demoSchedule).1.sleep_pending =
      false := by
  refine ⟨by decide, by decide, by decide, by decide, by decide, by decide⟩

/-- C1: mutual exclusion of execute fails under the very atomic
segments.  From the shipped news-summary task, idle and never run, the
schedule consisting of one scheduler-loop enqueue, then a manual
start_task trigger, then a worker dispatch of the queued reference is
fully enabled, and it ends with two invocations in flight of the execute
of one single task: after the first two segments the task is already
running, yet the worker segment still begins a second execute, because
PipelineTask.execute performs no on-entry running check and the
running-status guards sit only at the enqueue and manual-trigger sites. -/
theorem C1_two_executes_in_flight :
    runConc 36000 0 [ConcAct.loopEnqueue, ConcAct.manualBegin]
      ⟨demoTask, 0, 0⟩ =
      some ⟨{ demoTask with status := TStatus.running, lastRun := some 0 }, 1, 1⟩ ∧
    ({ demoTask with status := TStatus.running, lastRun := some 0 } :
      TaskState).status = TStatus.running ∧
    concStep 36000 0 ConcAct.workerBegin
      ⟨{ demoTask with status := TStatus.running, lastRun := some 0 }, 1, 1⟩ =
      some ⟨{ demoTask with status := TStatus.running, lastRun := some 0 }, 0, 2⟩ ∧
    (⟨{ demoTask with status := TStatus.running, lastRun := some 0 }, 0, 2⟩ :
      ConcState).inFlight = 2 := by
  refine ⟨by decide, rfl, by decide, rfl⟩

end Sched
